import Mathlib

/-!
Verification model of GDAL's generic raw binary driver
(`gdal/gcore/rawdataset.cpp`): the `RawRasterBand` scanline cache,
its construction-time offset validation, block read/write, flush,
the direct-I/O gate, multi-band layout inference, and the pre-open
memory sanity check.

Machine integers are modelled as `Nat` / `Int` with the C++ limits
(`INT_MAX`, `GINTBIG_MAX`, the `vsi_l_offset` maximum) made explicit at
the comparison points where the source checks them.  File contents are
modelled at scanline granularity: a file maps a scanline index to the
sequence of pixels readable at that line's start offset, each pixel
being its `dtSize` bytes in on-disk order.  Byte swapping of one word
is modelled as reversing the byte list of a pixel (an involution that
fixes all-zero words, which is all the proofs rely on).
-/

/-- Error statuses returned by the band operations (subset of CPLErr). -/
inductive CPLErr where
  | CE_None
  | CE_Failure
deriving DecidableEq, Repr

/-- The GDAL raster data types a `RawRasterBand` can carry. -/
inductive GDALDataType where
  | GDT_Unknown
  | GDT_Byte
  | GDT_Int16
  | GDT_UInt16
  | GDT_Int32
  | GDT_UInt32
  | GDT_Float32
  | GDT_Float64
  | GDT_CInt16
  | GDT_CInt32
  | GDT_CFloat32
  | GDT_CFloat64
deriving DecidableEq, Repr

/-- `GDALGetDataTypeSizeBytes`: element size in bytes of each data type. -/
def GDALGetDataTypeSizeBytes : GDALDataType → Nat
  | .GDT_Unknown => 0
  | .GDT_Byte => 1
  | .GDT_Int16 => 2
  | .GDT_UInt16 => 2
  | .GDT_Int32 => 4
  | .GDT_UInt32 => 4
  | .GDT_Float32 => 4
  | .GDT_Float64 => 8
  | .GDT_CInt16 => 4
  | .GDT_CInt32 => 8
  | .GDT_CFloat32 => 8
  | .GDT_CFloat64 => 16

/-- Maximum value of `vsi_l_offset` (unsigned 64-bit file offset). -/
def vsiMaxOffset : Nat := 18446744073709551615

/-- `GINTBIG_MAX`: maximum of the signed 64-bit `GIntBig`. -/
def GINTBIG_MAX : Nat := 9223372036854775807

/-- `std::numeric_limits<int>::max()`. -/
def INT_MAX : Nat := 2147483647

/-- Static configuration of one `RawRasterBand`: the four layout numbers,
the data type with byte order, and the raster dimensions.  `nBlockXSize`
equals `nRasterXSize` (one block is one scanline). -/
structure RawBand where
  nImgOffset : Nat
  nPixelOffset : Int
  nLineOffset : Int
  eDataType : GDALDataType
  bNativeOrder : Bool
  nRasterXSize : Nat
  nRasterYSize : Nat
deriving DecidableEq, Repr

/-- Element size in bytes of the band's data type. -/
def RawBand.nDTSize (b : RawBand) : Nat := GDALGetDataTypeSizeBytes b.eDataType

/-- `nLineSize = |nPixelOffset| * (nBlockXSize - 1) + nDTSize`, the number of
bytes read/written per scanline (as computed by `Initialize` when the
allocation guards pass). -/
def RawBand.nLineSize (b : RawBand) : Nat :=
  b.nPixelOffset.natAbs * (b.nRasterXSize - 1) + b.nDTSize

/-- The pixel-offset half of `RawRasterBand::Initialize`'s offset
validation, given the smallest/largest offsets left by the line-offset
half.  Returns `false` when the band must fail to construct.  Mirrors
lines 180-207 of rawdataset.cpp, including the final
`nLargestOffset > GINTBIG_MAX` check. -/
def pixelOffsetCheck (b : RawBand) (nSmallestOffset nLargestOffset : Nat) : Bool :=
  if b.nPixelOffset < 0 then
    if nSmallestOffset < b.nPixelOffset.natAbs * (b.nRasterXSize - 1) then false
    else decide (nLargestOffset ≤ GINTBIG_MAX)
  else
    if vsiMaxOffset - b.nPixelOffset.toNat * (b.nRasterXSize - 1) < nLargestOffset then false
    else decide (nLargestOffset + b.nPixelOffset.toNat * (b.nRasterXSize - 1) ≤ GINTBIG_MAX)

/-- The offset validation of `RawRasterBand::Initialize` (lines 155-207):
smallest addressable offset must be non-negative, largest addressable
offset must fit `vsi_l_offset` and `GIntBig`. -/
def RawBand.offsetChecksOk (b : RawBand) : Bool :=
  if b.nLineOffset < 0 then
    if b.nImgOffset < b.nLineOffset.natAbs * (b.nRasterYSize - 1) then false
    else pixelOffsetCheck b (b.nImgOffset - b.nLineOffset.natAbs * (b.nRasterYSize - 1))
           b.nImgOffset
  else
    if vsiMaxOffset - b.nLineOffset.toNat * (b.nRasterYSize - 1) < b.nImgOffset then false
    else pixelOffsetCheck b b.nImgOffset
           (b.nImgOffset + b.nLineOffset.toNat * (b.nRasterYSize - 1))

/-- The line-buffer sizing guards of `Initialize` (lines 212-216): the
band fails to construct when `nBlockXSize <= 0`, or
`|nPixelOffset| * (nBlockXSize - 1) + nDTSize` would overflow `int`. -/
def RawBand.lineBufferOk (b : RawBand) : Bool :=
  !(b.nRasterXSize == 0)
  && !(decide (1 < b.nRasterXSize)
       && decide (INT_MAX / (b.nRasterXSize - 1) < b.nPixelOffset.natAbs))
  && decide (b.nPixelOffset.natAbs * (b.nRasterXSize - 1) ≤ INT_MAX - b.nDTSize)

/-- Whether `RawRasterBand::Initialize` leaves `pLineBuffer` non-null
(construction succeeds).  The `VSIMalloc` itself is assumed to succeed
when the size guards pass. -/
def RawBand.initializeSucceeds (b : RawBand) : Bool :=
  b.offsetChecksOk && b.lineBufferOk

/-- The addressing rule: byte offset of pixel `(x, y)` of the band,
`nImgOffset + nLineOffset * y + nPixelOffset * x` in exact signed
arithmetic. -/
def RawBand.byteOffsetOfPixel (b : RawBand) (x y : Nat) : Int :=
  (b.nImgOffset : Int) + b.nLineOffset * (y : Int) + b.nPixelOffset * (x : Int)

/-- One pixel, as its `dtSize` bytes in native order. -/
def Pixel : Type := List Nat

instance : DecidableEq Pixel := by
  unfold Pixel
  infer_instance

/-- Byte swap of one word (`GDALSwapWords` on a single element): reverse
the element's bytes.  The proofs rely only on this being an involution
that fixes all-zero words, which also covers the complex split (two
half-words reversed separately). -/
def swapPixel (p : Pixel) : Pixel := p.reverse

/-- An all-zero word of `n` bytes. -/
def zeroPixel (n : Nat) : Pixel := List.replicate n 0

/-- The dataset-side facts `AccessLine` consults through `poDS`. -/
structure DsEnv where
  dsPresent : Bool
  readOnly : Bool
  hasENVI : Bool
deriving DecidableEq, Repr

/-- Mutable state of one band's scanline cache together with the
underlying file, at scanline granularity.  `fileLines y` is the sequence
of whole pixels (in on-disk order) readable starting at line `y`'s start
offset; fewer than `nRasterXSize` entries model a short read, `none`
models reading nothing (e.g. past EOF).  `readCount` / `writeCount` /
`fileFlushCount` count the file accesses issued. -/
structure LineState where
  lineBuf : List Pixel
  nLoadedScanline : Int
  bDirty : Bool
  fileLines : Int → Option (List Pixel)
  readCount : Nat
  writeCount : Nat
  fileFlushCount : Nat

/-- Whether `AccessLine`/`IReadBlock`/`IWriteBlock` must byte-swap:
`!bNativeOrder && eDataType != GDT_Byte`. -/
def RawBand.needSwap (b : RawBand) : Bool :=
  !b.bNativeOrder && !(b.eDataType == .GDT_Byte)

/-- `RawRasterBand::AccessLine(iLine)` (lines 308-398).  `bufValid`
models `pLineBuffer != nullptr`; `seekOk` models whether `Seek` to the
line start succeeds.  A failed `Read` that still returned some bytes
leaves those raw (unswapped) bytes at the front of the buffer, as the
source does. -/
def AccessLine (b : RawBand) (bufValid : Bool) (ds : DsEnv) (seekOk : Bool)
    (st : LineState) (iLine : Int) : CPLErr × LineState :=
  if !bufValid then (.CE_Failure, st)
  else if st.nLoadedScanline == iLine then (.CE_None, st)
  else if !seekOk then
    if ds.dsPresent && ds.readOnly then (.CE_Failure, st)
    else (.CE_None, { st with
            lineBuf := List.replicate b.nRasterXSize (zeroPixel b.nDTSize)
            nLoadedScanline := iLine })
  else
    let data := ((st.fileLines iLine).getD []).take b.nRasterXSize
    let st1 := { st with readCount := st.readCount + 1 }
    if decide (data.length < b.nRasterXSize) && ds.dsPresent && ds.readOnly
        && !ds.hasENVI then
      (.CE_Failure, { st1 with
          lineBuf := data ++ st.lineBuf.drop data.length })
    else
      let padded := data ++
        List.replicate (b.nRasterXSize - data.length) (zeroPixel b.nDTSize)
      (.CE_None, { st1 with
          lineBuf := if b.needSwap then padded.map swapPixel else padded
          nLoadedScanline := iLine })

/-- `RawRasterBand::IReadBlock` (lines 404-423): ensure the line is
cached, then copy the cached pixels out.  The third component is the
pixel sequence delivered to the caller (`none` on failure, where the
source leaves the caller's buffer untouched). -/
def IReadBlock (b : RawBand) (bufValid : Bool) (ds : DsEnv) (seekOk : Bool)
    (st : LineState) (iLine : Int) : CPLErr × LineState × Option (List Pixel) :=
  if !bufValid then (.CE_Failure, st, none)
  else
    match AccessLine b bufValid ds seekOk st iLine with
    | (.CE_Failure, st') => (.CE_Failure, st', none)
    | (.CE_None, st') => (.CE_None, st', some st'.lineBuf)

/-- `RawRasterBand::IWriteBlock` (lines 429-524).  Pre-reads the line
only when `|nPixelOffset| > nDTSize`; copies the caller's pixels into
the line buffer; swaps to disk order; seeks and writes; swaps back;
always sets `bDirty`.  `nLoadedScanline` is only updated by the
pre-read, never by the write itself.  The `Write` call is skipped when
an earlier step already failed; a short write leaves the modelled file
unchanged. -/
def IWriteBlock (b : RawBand) (bufValid : Bool) (ds : DsEnv)
    (seekOk writeOk : Bool) (st : LineState) (iLine : Int)
    (src : List Pixel) : CPLErr × LineState :=
  if !bufValid then (.CE_Failure, st)
  else
    let pre : CPLErr × LineState :=
      if decide ((b.nDTSize : Int) < b.nPixelOffset.natAbs) then
        AccessLine b bufValid ds seekOk st iLine
      else (.CE_None, st)
    let e0 := pre.1
    let st0 := pre.2
    let st1 := { st0 with lineBuf := src }
    let disk := if b.needSwap then src.map swapPixel else src
    let e1 := if !seekOk then CPLErr.CE_Failure else e0
    let st2 :=
      if e1 == .CE_None then
        if writeOk then
          { st1 with
              fileLines := fun y => if y == iLine then some disk else st1.fileLines y
              writeCount := st1.writeCount + 1 }
        else { st1 with writeCount := st1.writeCount + 1 }
      else st1
    let e2 := if e1 == .CE_None && !writeOk then CPLErr.CE_Failure else e1
    (e2, { st2 with bDirty := true })

/-- `RawRasterBand::FlushCache` (lines 281-302).  The external
block-cache flush is abstracted by its observable effect on the band:
it returns `cacheErr` and performs `cacheWrites` block writes (each of
which would have set `bDirty`).  Then, only when `bDirty`, the file's
flush is invoked; `bDirty` is cleared on every path. -/
def FlushCacheRaw (st : LineState) (cacheErr : CPLErr) (cacheWrites : Nat)
    (fflushOk : Bool) : CPLErr × LineState :=
  let st0 := { st with
      bDirty := st.bDirty || decide (0 < cacheWrites)
      writeCount := st.writeCount + cacheWrites }
  if cacheErr != .CE_None then (cacheErr, { st0 with bDirty := false })
  else if st0.bDirty then
    ((if fflushOk then CPLErr.CE_None else CPLErr.CE_Failure),
     { st0 with bDirty := false, fileFlushCount := st0.fileFlushCount + 1 })
  else (.CE_None, st0)

/-- The scan loop of `RawRasterBand::IsSignificantNumberOfLinesLoaded`
(lines 578-597): walk the requested lines, counting those already held
in the external block cache (`cached`), returning `true` as soon as the
count exceeds `thr`. -/
def IsSignificantAux (cached : Int → Bool) (thr : Nat) :
    Int → Nat → Nat → Bool
  | _, _, 0 => false
  | iLine, cnt, rem + 1 =>
    if cached iLine then
      if thr < cnt + 1 then true
      else IsSignificantAux cached thr (iLine + 1) (cnt + 1) rem
    else IsSignificantAux cached thr (iLine + 1) cnt rem

/-- `IsSignificantNumberOfLinesLoaded(nLineOff, nLines)`: more than
`nLines / 20` of the requested scanlines are already cached. -/
def IsSignificantNumberOfLinesLoaded (cached : Int → Bool) (nLineOff : Int)
    (nLines : Nat) : Bool :=
  IsSignificantAux cached (nLines / 20) nLineOff 0 nLines

/-- `RawRasterBand::CanUseDirectIO` (lines 603-641).  `oneBigRead` is
the `GDAL_ONE_BIG_READ` option: `none` when unset, otherwise the
`CPLTestBool` of its value.  The member `nLineSize` is taken as the
value `Initialize` computes from the band's layout. -/
def CanUseDirectIO (b : RawBand) (cached : Int → Bool)
    (oneBigRead : Option Bool) (resampleNearest : Bool) (nYOff : Int)
    (nXSize nYSize : Nat) : Bool :=
  if b.nPixelOffset < 0 || !resampleNearest then false
  else
    match oneBigRead with
    | none =>
      if decide (b.nLineSize < 50000)
         || decide (b.nLineSize / b.nPixelOffset.toNat / 5 * 2 < nXSize)
         || IsSignificantNumberOfLinesLoaded cached nYOff nYSize then false
      else true
    | some v => v

/-- Requested window and buffer shape of one `IRasterIO` call. -/
structure RasterIOReq where
  nXOff : Int
  nYOff : Int
  nXSize : Nat
  nYSize : Nat
  nBufXSize : Nat
  nBufYSize : Nat
  eBufType : GDALDataType
  nPixelSpace : Int
  nLineSpace : Int
deriving DecidableEq, Repr

/-- Environment of one direct-I/O attempt: the block-cache contents, the
config option, the resample algorithm, overview availability/outcome,
and whether seeks and the progress callback succeed. -/
structure DirectIOEnv where
  cached : Int → Bool
  oneBigRead : Option Bool
  resampleNearest : Bool
  hasOverviews : Bool
  overviewOk : Bool
  seekOk : Bool
  progressOk : Bool

/-- Outcome of `RawRasterBand::IRasterIO`: either delegation to the
external generic `GDALRasterBand::IRasterIO`, or the direct path's
status together with the number of file reads it issued. -/
inductive DirectIOOutcome where
  | delegated
  | direct (e : CPLErr) (reads : Nat)
deriving DecidableEq, Repr

/-- The "simplest case" guard of the direct read path (lines 691-697):
full-width, unscaled, same-typed, contiguous on disk and in the caller's
buffer. -/
def contiguousReadCase (b : RawBand) (req : RasterIOReq) : Bool :=
  req.nXSize == b.nRasterXSize && req.nXSize == req.nBufXSize
  && req.nYSize == req.nBufYSize && req.eBufType == b.eDataType
  && b.nPixelOffset == (b.nDTSize : Int)
  && req.nPixelSpace == (GDALGetDataTypeSizeBytes req.eBufType : Int)
  && req.nLineSpace == req.nPixelSpace * (req.nXSize : Int)

/-- The per-line loop of the general direct read case (lines 729-786):
each output line issues one `AccessBlock` (whose seek, when it fails,
zero-fills and still reports success, so the loop's own read never
fails), then consults the progress callback; a cancelled callback aborts
with failure.  Returns the status and the number of file reads. -/
def directReadLoop (seekOk progressOk : Bool) : Nat → CPLErr × Nat
  | 0 => (.CE_None, 0)
  | n + 1 =>
    let r := if seekOk then 1 else 0
    if !progressOk then (.CE_Failure, r)
    else
      let rest := directReadLoop seekOk progressOk n
      (rest.1, r + rest.2)

/-- Control-flow model of `RawRasterBand::IRasterIO` for `GF_Read`
(lines 647-790): the only guard before the direct path is
`CanUseDirectIO` — the function never inspects `pLineBuffer`.  Data
movement into the caller's buffer and the staging allocation are
elided; the modelled observables are the chosen path, the returned
status and the file reads issued.  `AccessBlock` (lines 530-568)
reports success even on seek failure or short read (zero-filling
instead), so the contiguous case always returns `CE_None`. -/
def IRasterIORead (b : RawBand) (env : DirectIOEnv) (req : RasterIOReq) :
    DirectIOOutcome :=
  if ! CanUseDirectIO b env.cached env.oneBigRead env.resampleNearest
      req.nYOff req.nXSize req.nYSize then
    .delegated
  else if (decide (req.nBufXSize < req.nXSize)
           || decide (req.nBufYSize < req.nYSize))
          && env.hasOverviews && env.overviewOk then
    .direct .CE_None 0
  else if contiguousReadCase b req then
    .direct .CE_None (if env.seekOk then 1 else 0)
  else
    let res := directReadLoop env.seekOk env.progressOk req.nBufYSize
    .direct res.1 res.2

/-- Per-band layout facts `GetRawBinaryLayout` reads off each
`RawRasterBand`. -/
structure RawBandInfo where
  nImgOffset : Nat
  nPixelOffset : Int
  nLineOffset : Int
  bNativeOrder : Bool
  eDataType : GDALDataType
deriving DecidableEq, Repr

/-- A raw dataset: shared raster dimensions plus the ordered bands. -/
structure RawDs where
  nRasterXSize : Nat
  nRasterYSize : Nat
  bands : List RawBandInfo
deriving DecidableEq, Repr

/-- `GDALDataset::RawBinaryLayout::Interleaving`. -/
inductive Interleaving where
  | UNKNOWN
  | BIP
  | BIL
  | BSQ
deriving DecidableEq, Repr

/-- The inference output structure `GDALDataset::RawBinaryLayout`. -/
structure RawBinaryLayout where
  eInterleaving : Interleaving
  eDataType : GDALDataType
  bLittleEndianOrder : Bool
  nImageOffset : Nat
  nPixelOffset : Int
  nLineOffset : Int
  nBandOffset : Int
deriving DecidableEq, Repr

/-- Whether band `b` agrees with band 1 on
`(nPixelOffset, nLineOffset, bNativeOrder, eDataType)`
(the disagreement test of lines 1358-1364). -/
def bandsMatch (b1 b : RawBandInfo) : Bool :=
  b.nPixelOffset == b1.nPixelOffset && b.nLineOffset == b1.nLineOffset
  && b.bNativeOrder == b1.bNativeOrder && b.eDataType == b1.eDataType

/-- `(GIntBig)band.nImgOffset - (GIntBig)band1.nImgOffset`. -/
def bandDelta (b1 b : RawBandInfo) : Int :=
  (b.nImgOffset : Int) - (b1.nImgOffset : Int)

/-- The `i = 2 .. nBands` iterations of `GetRawBinaryLayout`'s loop
(lines 1345-1376): reject on quadruple mismatch, let band 2 fix
`nBandOffset`, and require every later band's offset to sit on the
arithmetic progression.  Returns the final `nBandOffset`. -/
def scanTailBands (b1 : RawBandInfo) : Nat → Int → List RawBandInfo → Option Int
  | _, acc, [] => some acc
  | i, acc, b :: rest =>
    if !bandsMatch b1 b then none
    else if i == 2 then scanTailBands b1 (i + 1) (bandDelta b1 b) rest
    else if acc * ((i : Int) - 1) == bandDelta b1 b then
      scanTailBands b1 (i + 1) acc rest
    else none

/-- `RawDataset::GetRawBinaryLayout` (lines 1337-1414) on a
little-endian (`CPL_LSB`) host; `none` models the C++ `return false`
(no layout reported). -/
def GetRawBinaryLayout (ds : RawDs) : Option RawBinaryLayout :=
  match ds.bands with
  | [] => some { eInterleaving := .UNKNOWN, eDataType := .GDT_Unknown,
                 bLittleEndianOrder := false, nImageOffset := 0,
                 nPixelOffset := 0, nLineOffset := 0, nBandOffset := 0 }
  | b1 :: rest =>
    match scanTailBands b1 2 0 rest with
    | none => none
    | some nBandOffset =>
      let nBands := ds.bands.length
      let nDTSize := GDALGetDataTypeSizeBytes b1.eDataType
      let eInterleaving :=
        if 1 < nBands then
          if b1.nPixelOffset == ((nBands * nDTSize : Nat) : Int)
             && b1.nLineOffset == b1.nPixelOffset * (ds.nRasterXSize : Int)
             && nBandOffset == (nDTSize : Int) then
            Interleaving.BIP
          else if b1.nPixelOffset == (nDTSize : Int)
             && b1.nLineOffset == ((nDTSize * nBands * ds.nRasterXSize : Nat) : Int)
             && nBandOffset == ((nDTSize * ds.nRasterXSize : Nat) : Int) then
            Interleaving.BIL
          else if b1.nPixelOffset == (nDTSize : Int)
             && b1.nLineOffset == ((nDTSize * ds.nRasterXSize : Nat) : Int)
             && nBandOffset == b1.nLineOffset * (ds.nRasterYSize : Int) then
            Interleaving.BSQ
          else Interleaving.UNKNOWN
        else Interleaving.UNKNOWN
      some { eInterleaving := eInterleaving
             eDataType := b1.eDataType
             bLittleEndianOrder := b1.bNativeOrder
             nImageOffset := b1.nImgOffset
             nPixelOffset := b1.nPixelOffset
             nLineOffset := b1.nLineOffset
             nBandOffset := nBandOffset }

/-- `2 ^ 64`, modulus of the `vsi_l_offset` conversions. -/
def twoPow64 : Nat := 18446744073709551616

/-- The `CPLSM`-composed expected file size of lines 1297-1301:
`header + band_stride*(nBands-1) + (line_stride >= 0 ? line_stride*(h-1) : 0)
+ (pixel_stride >= 0 ? pixel_stride*(w-1) : 0)`, in exact arithmetic. -/
def expectedFileSize (nXSize nYSize nBands : Nat)
    (nPixelOffset nLineOffset : Int) (nHeaderSize nBandOffset : Nat) : Nat :=
  nHeaderSize + nBandOffset * (nBands - 1)
  + (if 0 ≤ nLineOffset then (nYSize - 1) * nLineOffset.toNat else 0)
  + (if 0 ≤ nPixelOffset then (nXSize - 1) * nPixelOffset.toNat else 0)

/-- `RAWDatasetCheckMemoryUsage` (lines 1272-1331).  `checkOpt` is the
`RAW_CHECK_FILE_SIZE` option (`none` unset, otherwise its
`CPLTestBool`); `nFileSize` is the file's size read after seeking to
its end.  The trigger's product is computed as the source does: the
`int` pixel offset converted to the unsigned 64-bit `vsi_l_offset`
(two's complement) before multiplying.  The expected size is computed
in exact arithmetic; exceeding the `vsi_l_offset` maximum models the
overflow-checked `CPLSM` arithmetic throwing (all terms are
non-negative, so some partial `CPLSM` step overflows exactly when the
exact total does).  `nBands ≥ 1` and raster dimensions `≥ 1` are
assumed by callers; the `Nat` subtractions match the source there. -/
def RAWDatasetCheckMemoryUsage (nXSize nYSize nBands nDTSize : Nat)
    (nPixelOffset nLineOffset : Int) (nHeaderSize nBandOffset : Nat)
    (checkOpt : Option Bool) (nFileSize : Nat) : Bool :=
  let sizeCheckOn :=
    (decide (10 < nBands)
     || decide (20000 < ((nPixelOffset % (twoPow64 : Int)).toNat * nXSize) % twoPow64)
     || checkOpt == some true)
    && !(checkOpt == some false)
  let nExpectedFileSize :=
    expectedFileSize nXSize nYSize nBands nPixelOffset nLineOffset
      nHeaderSize nBandOffset
  if sizeCheckOn && (decide (vsiMaxOffset < nExpectedFileSize)
      || decide (nFileSize < nExpectedFileSize / 2)) then false
  else
    let nLineSize := nPixelOffset.natAbs * (nXSize - 1) + nDTSize
    if decide (0 < nBands) && decide (INT_MAX / 4 / nBands < nLineSize) then false
    else true

/-- The memory sanity check as claim C8 words it, for comparison with
`RAWDatasetCheckMemoryUsage`: the size check is "triggered" by
`nBands > 10`, or the mathematical signed product
`pixel_stride * width > 20000`, or a truthy configuration — with no
disabling effect of a falsy configuration. -/
def checkMemoryUsageClaim (nXSize nYSize nBands nDTSize : Nat)
    (nPixelOffset nLineOffset : Int) (nHeaderSize nBandOffset : Nat)
    (checkOpt : Option Bool) (nFileSize : Nat) : Bool :=
  let sizeCheckOn :=
    decide (10 < nBands)
    || decide ((20000 : Int) < nPixelOffset * (nXSize : Int))
    || checkOpt == some true
  let nExpectedFileSize :=
    expectedFileSize nXSize nYSize nBands nPixelOffset nLineOffset
      nHeaderSize nBandOffset
  if sizeCheckOn && (decide (vsiMaxOffset < nExpectedFileSize)
      || decide (nFileSize < nExpectedFileSize / 2)) then false
  else
    let nLineSize := nPixelOffset.natAbs * (nXSize - 1) + nDTSize
    if decide (0 < nBands) && decide (INT_MAX / (4 * nBands) < nLineSize) then false
    else true

/-- The direct-I/O gate as claim C4 words it, for comparison with
`CanUseDirectIO`: the width threshold is read as
`(line_size / pixel_stride) * 2 / 5` in integer arithmetic. -/
def canUseDirectIOClaim (b : RawBand) (cached : Int → Bool)
    (oneBigRead : Option Bool) (resampleNearest : Bool) (nYOff : Int)
    (nXSize nYSize : Nat) : Bool :=
  if b.nPixelOffset < 0 || !resampleNearest then false
  else
    match oneBigRead with
    | none =>
      if decide (b.nLineSize < 50000)
         || decide (b.nLineSize / b.nPixelOffset.toNat * 2 / 5 < nXSize)
         || IsSignificantNumberOfLinesLoaded cached nYOff nYSize then false
      else true
    | some v => v

/-- The per-window count of scanlines already held in the block cache,
for stating the "more than 5% cached" reading of the direct-I/O gate. -/
def countLoadedLines (cached : Int → Bool) (off : Int) : Nat → Nat
  | 0 => 0
  | n + 1 => (if cached off then 1 else 0) + countLoadedLines cached (off + 1) n

/-- A small valid band with both strides negative: bottom-up,
right-to-left byte layout ending exactly at offset 0. -/
def bandNegStrides : RawBand :=
  { nImgOffset := 99, nPixelOffset := -1, nLineOffset := -10,
    eDataType := .GDT_Byte, bNativeOrder := true,
    nRasterXSize := 10, nRasterYSize := 10 }

/-- A two-pixel byte band used by the `AccessLine` scenarios. -/
def bandTwoPx : RawBand :=
  { nImgOffset := 0, nPixelOffset := 1, nLineOffset := 2,
    eDataType := .GDT_Byte, bNativeOrder := true,
    nRasterXSize := 2, nRasterYSize := 4 }

/-- A one-pixel byte band with contiguous pixels
(`|nPixelOffset| = nDTSize`, so `IWriteBlock` never pre-reads). -/
def bandOnePx : RawBand :=
  { nImgOffset := 0, nPixelOffset := 1, nLineOffset := 1,
    eDataType := .GDT_Byte, bNativeOrder := true,
    nRasterXSize := 1, nRasterYSize := 1 }

/-- A read-write dataset environment without the ENVI tag. -/
def dsUpdate : DsEnv := { dsPresent := true, readOnly := false, hasENVI := false }

/-- A read-only dataset environment carrying the ENVI tag. -/
def dsReadOnlyENVI : DsEnv := { dsPresent := true, readOnly := true, hasENVI := true }

/-- The floating-band environment: no owning dataset. -/
def dsFloating : DsEnv := { dsPresent := false, readOnly := true, hasENVI := false }

/-- A fresh band state over an empty file: nothing cached
(`nLoadedScanline = -1`), nothing dirty, no accesses yet. -/
def emptyState : LineState :=
  { lineBuf := [[0]], nLoadedScanline := -1, bDirty := false,
    fileLines := fun _ => none, readCount := 0, writeCount := 0,
    fileFlushCount := 0 }

/-- A band state over a file whose every line holds a single pixel (a
short read for any band wider than one pixel). -/
def shortFileState : LineState :=
  { lineBuf := [[0], [0]], nLoadedScanline := -1, bDirty := false,
    fileLines := fun _ => some [[5]], readCount := 0, writeCount := 0,
    fileFlushCount := 0 }

/-- The band of the C4 counterexample: one-byte pixels, 50003 of them
per line, so `nLineSize = 50003`. -/
def bandWide : RawBand :=
  { nImgOffset := 0, nPixelOffset := 1, nLineOffset := 50003,
    eDataType := .GDT_Byte, bNativeOrder := true,
    nRasterXSize := 50003, nRasterYSize := 1 }

/-- A band whose construction fails (`|nLineOffset|·(h−1) > nImgOffset`,
so `Initialize` nulls the line buffer). -/
def bandBadInit : RawBand :=
  { nImgOffset := 0, nPixelOffset := 1, nLineOffset := -10,
    eDataType := .GDT_Byte, bNativeOrder := true,
    nRasterXSize := 10, nRasterYSize := 2 }

/-- Direct-I/O environment with `GDAL_ONE_BIG_READ=TRUE`, nearest
resampling, no overviews, working seeks and progress. -/
def envOneBigRead : DirectIOEnv :=
  { cached := fun _ => false, oneBigRead := some true, resampleNearest := true,
    hasOverviews := false, overviewOk := false, seekOk := true,
    progressOk := true }

/-- A full-raster contiguous read request on `bandBadInit`. -/
def reqFullWindow : RasterIOReq :=
  { nXOff := 0, nYOff := 0, nXSize := 10, nYSize := 2, nBufXSize := 10,
    nBufYSize := 2, eBufType := .GDT_Byte, nPixelSpace := 1, nLineSpace := 10 }

/-- Band 1 of the spec's BIL scenario: two-byte elements,
`nPixelOffset = 2`, `nLineOffset = 30`, image offset 0. -/
def bilBand1 : RawBandInfo :=
  { nImgOffset := 0, nPixelOffset := 2, nLineOffset := 30,
    bNativeOrder := true, eDataType := .GDT_Int16 }

/-- Band 2 of the BIL scenario: image offset 10. -/
def bilBand2 : RawBandInfo :=
  { nImgOffset := 10, nPixelOffset := 2, nLineOffset := 30,
    bNativeOrder := true, eDataType := .GDT_Int16 }

/-- Band 3 of the BIL scenario: image offset 20. -/
def bilBand3 : RawBandInfo :=
  { nImgOffset := 20, nPixelOffset := 2, nLineOffset := 30,
    bNativeOrder := true, eDataType := .GDT_Int16 }

/-- The three-band BIL dataset of the spec's scenario 6: width 5,
height 4, band stride 10. -/
def dsBIL : RawDs :=
  { nRasterXSize := 5, nRasterYSize := 4,
    bands := [bilBand1, bilBand2, bilBand3] }

/-! ## Theorems -/

/-- **C6.** In `FlushCache`, after the external block-cache flush the
file's flush is invoked only if the dirty flag is set (conjunct 2:
`fileFlushCount` grows exactly when the cache flush succeeded and the
flag was set before or during it); the dirty flag is reset to false on
every path (conjunct 1); on a cache-flush error that error is
propagated (conjunct 3) and the file is not flushed (conjunct 2 again);
consequently a second flush immediately after a first — whose cache
walk finds nothing left to write — is a no-op returning success
(conjunct 4). -/
theorem c6_flush_dirty_discipline (st : LineState) (cacheErr : CPLErr)
    (cacheWrites : Nat) (fflushOk : Bool) :
    (FlushCacheRaw st cacheErr cacheWrites fflushOk).2.bDirty = false
    ∧ ((FlushCacheRaw st cacheErr cacheWrites fflushOk).2.fileFlushCount
        = st.fileFlushCount
          + (if cacheErr = .CE_None ∧ (st.bDirty = true ∨ 0 < cacheWrites)
             then 1 else 0))
    ∧ (cacheErr ≠ .CE_None →
        (FlushCacheRaw st cacheErr cacheWrites fflushOk).1 = cacheErr)
    ∧ (∀ fflushOk2 : Bool,
        FlushCacheRaw (FlushCacheRaw st cacheErr cacheWrites fflushOk).2
            .CE_None 0 fflushOk2
          = (.CE_None, (FlushCacheRaw st cacheErr cacheWrites fflushOk).2)) := by
  cases cacheErr <;> cases hb : st.bDirty <;> cases cacheWrites <;>
    simp [FlushCacheRaw, hb]

/-- **C6 witness**: the flush discipline at a concrete dirty state. -/
theorem c6_witness :
    (FlushCacheRaw { emptyState with bDirty := true } .CE_None 0 true).2.bDirty = false
    ∧ ((FlushCacheRaw { emptyState with bDirty := true } .CE_None 0 true).2.fileFlushCount
        = { emptyState with bDirty := true }.fileFlushCount
          + (if CPLErr.CE_None = .CE_None
                ∧ ({ emptyState with bDirty := true }.bDirty = true ∨ 0 < 0)
             then 1 else 0))
    ∧ (CPLErr.CE_None ≠ .CE_None →
        (FlushCacheRaw { emptyState with bDirty := true } .CE_None 0 true).1 = .CE_None)
    ∧ (∀ fflushOk2 : Bool,
        FlushCacheRaw (FlushCacheRaw { emptyState with bDirty := true } .CE_None 0 true).2
            .CE_None 0 fflushOk2
          = (.CE_None, (FlushCacheRaw { emptyState with bDirty := true } .CE_None 0 true).2)) :=
  c6_flush_dirty_discipline { emptyState with bDirty := true } .CE_None 0 true

/-- **C9.** `IWriteBlock` on a band with a valid line buffer sets the
dirty flag on every invocation, including when the seek fails or the
write is short — cases in which it also returns failure. -/
theorem c9_writeblock_sets_dirty (b : RawBand) (ds : DsEnv)
    (seekOk writeOk : Bool) (st : LineState) (iLine : Int) (src : List Pixel) :
    (IWriteBlock b true ds seekOk writeOk st iLine src).2.bDirty = true
    ∧ (seekOk = false →
        (IWriteBlock b true ds seekOk writeOk st iLine src).1 = .CE_Failure)
    ∧ (writeOk = false →
        (IWriteBlock b true ds seekOk writeOk st iLine src).1 = .CE_Failure) := by
  refine ⟨rfl, ?_, ?_⟩
  · intro h
    subst h
    rfl
  · intro h
    subst h
    cases hs : seekOk
    · rfl
    · by_cases hc : (b.nDTSize : Int) < |b.nPixelOffset|
      · rcases ha : AccessLine b true ds true st iLine with ⟨e0, st0⟩
        cases e0 <;> simp [IWriteBlock, hc, ha]
      · simp [IWriteBlock, hc]

/-- **C9 witness**: a concrete failed write (short write) that still
marks the band dirty. -/
theorem c9_witness :
    (IWriteBlock bandOnePx true dsUpdate true false emptyState 0 [[7]]).2.bDirty = true
    ∧ (true = false →
        (IWriteBlock bandOnePx true dsUpdate true false emptyState 0 [[7]]).1 = .CE_Failure)
    ∧ (false = false →
        (IWriteBlock bandOnePx true dsUpdate true false emptyState 0 [[7]]).1 = .CE_Failure) :=
  c9_writeblock_sets_dirty bandOnePx dsUpdate true false emptyState 0 [[7]]

/-- **C10.** On a band created without an owning dataset
(`poDS == nullptr`), `AccessLine` never fails: a seek failure zeroes
the buffer and succeeds, and a short read zero-fills the tail and
succeeds, whatever the access mode or metadata. -/
theorem c10_floating_band_never_fails (b : RawBand) (ds : DsEnv)
    (seekOk : Bool) (st : LineState) (iLine : Int)
    (hds : ds.dsPresent = false) :
    (AccessLine b true ds seekOk st iLine).1 = .CE_None
    ∧ (st.nLoadedScanline ≠ iLine → seekOk = false →
        (AccessLine b true ds seekOk st iLine).2.lineBuf
          = List.replicate b.nRasterXSize (zeroPixel b.nDTSize)
        ∧ (AccessLine b true ds seekOk st iLine).2.nLoadedScanline = iLine)
    ∧ (st.nLoadedScanline ≠ iLine → seekOk = true →
        (AccessLine b true ds seekOk st iLine).2.lineBuf.drop
            (((st.fileLines iLine).getD []).take b.nRasterXSize).length
          = List.replicate
              (b.nRasterXSize
                - (((st.fileLines iLine).getD []).take b.nRasterXSize).length)
              (zeroPixel b.nDTSize)
        ∧ (AccessLine b true ds seekOk st iLine).2.nLoadedScanline = iLine) := by
  have hzero : swapPixel (zeroPixel b.nDTSize) = zeroPixel b.nDTSize := by
    simp [swapPixel, zeroPixel, List.reverse_replicate]
  by_cases hl : st.nLoadedScanline = iLine
  · simp [AccessLine, hl]
  · cases seekOk
    · simp [AccessLine, hl, hds]
    · refine ⟨?_, by simp, fun _ _ => ⟨?_, ?_⟩⟩ <;>
        cases hsw : b.needSwap <;>
          simp [AccessLine, hl, hds, hsw, List.drop_left, hzero,
            List.map_append, List.map_replicate]

/-- **C10 witness**: a floating band over a short file, read-only access
mode: the short read still succeeds with a zeroed tail. -/
theorem c10_witness :
    (AccessLine bandTwoPx true dsFloating true shortFileState 0).1 = .CE_None
    ∧ (shortFileState.nLoadedScanline ≠ 0 → true = false →
        (AccessLine bandTwoPx true dsFloating true shortFileState 0).2.lineBuf
          = List.replicate bandTwoPx.nRasterXSize (zeroPixel bandTwoPx.nDTSize)
        ∧ (AccessLine bandTwoPx true dsFloating true shortFileState 0).2.nLoadedScanline = 0)
    ∧ (shortFileState.nLoadedScanline ≠ 0 → true = true →
        (AccessLine bandTwoPx true dsFloating true shortFileState 0).2.lineBuf.drop
            (((shortFileState.fileLines 0).getD []).take bandTwoPx.nRasterXSize).length
          = List.replicate
              (bandTwoPx.nRasterXSize
                - (((shortFileState.fileLines 0).getD []).take bandTwoPx.nRasterXSize).length)
              (zeroPixel bandTwoPx.nDTSize)
        ∧ (AccessLine bandTwoPx true dsFloating true shortFileState 0).2.nLoadedScanline = 0) :=
  c10_floating_band_never_fails bandTwoPx dsFloating true shortFileState 0 rfl

/-- **C3 counterexample.** A valid contiguous band
(`|nPixelOffset| = nDTSize`, so `IWriteBlock` takes no pre-read and
leaves `nLoadedScanline` untouched), fresh state: `write_block(0, [7])`
succeeds without reading, but the following `read_block(0)` — though it
does return the written pixel — issues a file read (`readCount` goes
from 0 to 1), refuting "without any intervening file read". -/
theorem c3_counterexample :
    (IWriteBlock bandOnePx true dsUpdate true true emptyState 0 [[7]]).1 = .CE_None
    ∧ (IWriteBlock bandOnePx true dsUpdate true true emptyState 0 [[7]]).2.readCount = 0
    ∧ (IReadBlock bandOnePx true dsUpdate true
        (IWriteBlock bandOnePx true dsUpdate true true emptyState 0 [[7]]).2 0).1 = .CE_None
    ∧ (IReadBlock bandOnePx true dsUpdate true
        (IWriteBlock bandOnePx true dsUpdate true true emptyState 0 [[7]]).2 0).2.2
        = some [[7]]
    ∧ (IReadBlock bandOnePx true dsUpdate true
        (IWriteBlock bandOnePx true dsUpdate true true emptyState 0 [[7]]).2 0).2.1.readCount
        = 1 :=
  ⟨rfl, rfl, rfl, rfl, rfl⟩

/-- **C4 counterexample.** `nLineSize = 50003`, `nPixelOffset = 1`,
request width 20001, nothing cached, `GDAL_ONE_BIG_READ` unset, nearest
resampling: the code's threshold `50003 / 1 / 5 * 2 = 20000` makes
`CanUseDirectIO` return `false`, while the claim's threshold
`50003 / 1 * 2 / 5 = 20001` predicts `true`. -/
theorem c4_counterexample :
    CanUseDirectIO bandWide (fun _ => false) none true 0 20001 1 = false
    ∧ canUseDirectIOClaim bandWide (fun _ => false) none true 0 20001 1 = true := by
  constructor <;> decide

/-- **C7 counterexample.** `bandBadInit` fails construction
(`|nLineOffset|·(height−1) = 10 > nImgOffset = 0`, so `pLineBuffer` is
null), yet with `GDAL_ONE_BIG_READ=TRUE` its windowed read takes the
direct path — which never checks `pLineBuffer` — issues a file read and
returns success, refuting "every I/O operation returns failure and
performs no file access". -/
theorem c7_counterexample :
    bandBadInit.initializeSucceeds = false
    ∧ IRasterIORead bandBadInit envOneBigRead reqFullWindow
        = .direct .CE_None 1 := by
  constructor <;> decide

/-- **C8 counterexample.** With `RAW_CHECK_FILE_SIZE=FALSE`,
`nBands = 11`, header 100 and an empty file, the claim's trigger
(`nBands > 10`) fires and its size test (`0 < 100 / 2`) predicts
rejection, but the code's falsy-option guard disables the size check
entirely and the function accepts. -/
theorem c8_counterexample :
    RAWDatasetCheckMemoryUsage 1 1 11 1 1 0 100 0 (some false) 0 = true
    ∧ checkMemoryUsageClaim 1 1 11 1 1 0 100 0 (some false) 0 = false := by
  constructor <;> decide

/-- **C2.** With an owning dataset present and the line not already
cached: a short read fails exactly when the dataset is read-only and
lacks the `ENVI` metadata tag; in every other case the unread tail is
zero-filled, `nLoadedScanline` is set and success is returned.  A seek
failure on a read-only dataset fails leaving the state untouched; on a
read-write dataset it zeroes the buffer, marks the line loaded and
succeeds. -/
theorem c2_accessLine_error_discipline (b : RawBand) (ds : DsEnv)
    (st : LineState) (iLine : Int)
    (hds : ds.dsPresent = true) (hl : st.nLoadedScanline ≠ iLine) :
    ((((st.fileLines iLine).getD []).take b.nRasterXSize).length < b.nRasterXSize →
      (((AccessLine b true ds true st iLine).1 = .CE_Failure)
        ↔ (ds.readOnly = true ∧ ds.hasENVI = false))
      ∧ (ds.readOnly = false ∨ ds.hasENVI = true →
          (AccessLine b true ds true st iLine).1 = .CE_None
          ∧ (AccessLine b true ds true st iLine).2.nLoadedScanline = iLine
          ∧ (AccessLine b true ds true st iLine).2.lineBuf.drop
              (((st.fileLines iLine).getD []).take b.nRasterXSize).length
            = List.replicate
                (b.nRasterXSize
                  - (((st.fileLines iLine).getD []).take b.nRasterXSize).length)
                (zeroPixel b.nDTSize)))
    ∧ (ds.readOnly = true → AccessLine b true ds false st iLine = (.CE_Failure, st))
    ∧ (ds.readOnly = false →
        (AccessLine b true ds false st iLine).1 = .CE_None
        ∧ (AccessLine b true ds false st iLine).2.lineBuf
            = List.replicate b.nRasterXSize (zeroPixel b.nDTSize)
        ∧ (AccessLine b true ds false st iLine).2.nLoadedScanline = iLine) := by
  have hzero : swapPixel (zeroPixel b.nDTSize) = zeroPixel b.nDTSize := by
    simp [swapPixel, zeroPixel, List.reverse_replicate]
  refine ⟨fun hshort => ⟨?_, fun hother => ⟨?_, ?_, ?_⟩⟩, fun hro => ?_, fun hro => ?_⟩
  · have hs2 : ((st.fileLines iLine).getD []).length < b.nRasterXSize := by
      rw [List.length_take] at hshort
      omega
    cases hro : ds.readOnly <;> cases he : ds.hasENVI <;>
      simp [AccessLine, hl, hds, hro, he, hs2]
  · rcases hother with hro | he
    · cases he : ds.hasENVI <;> simp [AccessLine, hl, hds, hro, he]
    · cases hro : ds.readOnly <;> simp [AccessLine, hl, hds, hro, he]
  · rcases hother with hro | he
    · cases he : ds.hasENVI <;> simp [AccessLine, hl, hds, hro, he]
    · cases hro : ds.readOnly <;> simp [AccessLine, hl, hds, hro, he]
  · rcases hother with hro | he <;>
      [ (cases he : ds.hasENVI); (cases hro : ds.readOnly)] <;>
      cases hsw : b.needSwap <;>
        simp [AccessLine, hl, hds, hro, he, hsw, List.drop_left, hzero,
          List.map_append, List.map_replicate]
  · simp [AccessLine, hl, hds, hro]
  · simp [AccessLine, hl, hds, hro]

/-- Byte-swapping a word twice restores it. -/
theorem swapPixel_swapPixel (p : Pixel) : swapPixel (swapPixel p) = p :=
  List.reverse_reverse p

/-- Byte-swapping a buffer twice restores it. -/
theorem map_swapPixel_involutive (l : List Pixel) :
    (l.map swapPixel).map swapPixel = l := by
  rw [List.map_map]
  rw [show swapPixel ∘ swapPixel = id from funext swapPixel_swapPixel]
  exact List.map_id l

/-- A successful `AccessLine` with a working seek leaves
`nLoadedScanline = iLine`. -/
theorem accessLine_success_loads (b : RawBand) (ds : DsEnv) (st : LineState)
    (iLine : Int) (h : (AccessLine b true ds true st iLine).1 = .CE_None) :
    (AccessLine b true ds true st iLine).2.nLoadedScanline = iLine := by
  by_cases hl : st.nLoadedScanline = iLine
  · simp [AccessLine, hl]
  · by_cases hshort : ((st.fileLines iLine).getD []).length < b.nRasterXSize
    · cases hdp : ds.dsPresent <;> cases hro : ds.readOnly <;>
        cases he : ds.hasENVI <;>
          simp [AccessLine, hl, hdp, hro, he, hshort] at h ⊢
    · simp [AccessLine, hl, hshort] at h ⊢

/-- Composition form of the double-swap identity. -/
theorem map_swapPixel_comp (l : List Pixel) : l.map (swapPixel ∘ swapPixel) = l := by
  rw [show swapPixel ∘ swapPixel = id from funext swapPixel_swapPixel]
  exact List.map_id l

/-- `IReadBlock` on a line already in the scanline cache returns the
cached pixels and leaves the state untouched (no file access). -/
theorem iReadBlock_cached (b : RawBand) (ds : DsEnv) (seekOk : Bool)
    (st : LineState) (iLine : Int) (h : st.nLoadedScanline = iLine) :
    IReadBlock b true ds seekOk st iLine = (.CE_None, st, some st.lineBuf) := by
  simp [IReadBlock, AccessLine, h]

/-- **C3 (amended).** After a successful `write_block(iLine, src)` on a
valid band with a working file, `read_block(iLine)` succeeds and
returns exactly `src`.  When the write took the pre-read path
(`|nPixelOffset| > nDTSize`, which leaves `nLoadedScanline = iLine`),
the read is served from the scanline cache with no file read; in the
contiguous case (`|nPixelOffset| ≤ nDTSize`) `IWriteBlock` does not
update `nLoadedScanline`, so the read may re-fetch the line from the
file — which then holds the just-written bytes. -/
theorem c3_amended_cache_coherence (b : RawBand) (ds : DsEnv)
    (st : LineState) (iLine : Int) (src : List Pixel)
    (hlen : src.length = b.nRasterXSize)
    (hw : (IWriteBlock b true ds true true st iLine src).1 = .CE_None) :
    (IReadBlock b true ds true
        (IWriteBlock b true ds true true st iLine src).2 iLine).1 = .CE_None
    ∧ (IReadBlock b true ds true
        (IWriteBlock b true ds true true st iLine src).2 iLine).2.2 = some src
    ∧ ((b.nDTSize : Int) < |b.nPixelOffset| →
        (IReadBlock b true ds true
            (IWriteBlock b true ds true true st iLine src).2 iLine).2.1.readCount
          = (IWriteBlock b true ds true true st iLine src).2.readCount) := by
  by_cases hc : (b.nDTSize : Int) < |b.nPixelOffset|
  · rcases ha : AccessLine b true ds true st iLine with ⟨e0, st0⟩
    have he0 : e0 = .CE_None := by
      cases e0
      · rfl
      · exfalso
        simp [IWriteBlock, hc, ha] at hw
    subst he0
    have hload : st0.nLoadedScanline = iLine := by
      have h2 := accessLine_success_loads b ds st iLine (by rw [ha])
      rwa [ha] at h2
    have h1 : (IWriteBlock b true ds true true st iLine src).2.nLoadedScanline
        = iLine := by
      simp [IWriteBlock, hc, ha, hload]
    have h2 : (IWriteBlock b true ds true true st iLine src).2.lineBuf = src := by
      simp [IWriteBlock, hc, ha]
    rw [iReadBlock_cached b ds true _ iLine h1]
    exact ⟨rfl, by rw [h2], fun _ => rfl⟩
  · have h2 : (IWriteBlock b true ds true true st iLine src).2.lineBuf = src := by
      simp [IWriteBlock, hc]
    by_cases hld : st.nLoadedScanline = iLine
    · have h1 : (IWriteBlock b true ds true true st iLine src).2.nLoadedScanline
          = iLine := by
        simp [IWriteBlock, hc, hld]
      rw [iReadBlock_cached b ds true _ iLine h1]
      exact ⟨rfl, by rw [h2], fun hcc => absurd hcc hc⟩
    · have h1 : (IWriteBlock b true ds true true st iLine src).2.nLoadedScanline
          = st.nLoadedScanline := by
        simp [IWriteBlock, hc]
      cases hsw : b.needSwap
      · have h4 : (IWriteBlock b true ds true true st iLine src).2.fileLines iLine
            = some src := by
          simp [IWriteBlock, hc, hsw]
        refine ⟨?_, ?_, fun hcc => absurd hcc hc⟩ <;>
          simp [IReadBlock, AccessLine, h1, h2, h4, hld, hsw, hlen,
            List.take_of_length_le]
      · have h4 : (IWriteBlock b true ds true true st iLine src).2.fileLines iLine
            = some (src.map swapPixel) := by
          simp [IWriteBlock, hc, hsw]
        have hdlen : (src.map swapPixel).length = b.nRasterXSize := by
          simp [hlen]
        refine ⟨?_, ?_, fun hcc => absurd hcc hc⟩ <;>
          simp [IReadBlock, AccessLine, h1, h2, h4, hld, hsw, hlen, hdlen,
            List.take_of_length_le, map_swapPixel_involutive, map_swapPixel_comp]

/-- **C3 witness**: the amended coherence at the concrete contiguous
band: the re-read returns the written pixel. -/
theorem c3_witness :
    (IReadBlock bandOnePx true dsUpdate true
        (IWriteBlock bandOnePx true dsUpdate true true emptyState 0 [[7]]).2 0).1
      = .CE_None
    ∧ (IReadBlock bandOnePx true dsUpdate true
        (IWriteBlock bandOnePx true dsUpdate true true emptyState 0 [[7]]).2 0).2.2
      = some [[7]]
    ∧ ((bandOnePx.nDTSize : Int) < |bandOnePx.nPixelOffset| →
        (IReadBlock bandOnePx true dsUpdate true
            (IWriteBlock bandOnePx true dsUpdate true true emptyState 0 [[7]]).2
            0).2.1.readCount
          = (IWriteBlock bandOnePx true dsUpdate true true emptyState 0
              [[7]]).2.readCount) :=
  c3_amended_cache_coherence bandOnePx dsUpdate emptyState 0 [[7]] rfl rfl

/-- **C2 witness**: read-only dataset carrying the `ENVI` tag over a
short file: the short read succeeds and marks the line loaded. -/
theorem c2_witness :
    (AccessLine bandTwoPx true dsReadOnlyENVI true shortFileState 0).1 = .CE_None
    ∧ (AccessLine bandTwoPx true dsReadOnlyENVI true shortFileState 0).2.nLoadedScanline
        = 0 :=
  ⟨(((c2_accessLine_error_discipline bandTwoPx dsReadOnlyENVI shortFileState 0 rfl
        (by decide)).1 (by decide)).2 (Or.inr rfl)).1,
   (((c2_accessLine_error_discipline bandTwoPx dsReadOnlyENVI shortFileState 0 rfl
        (by decide)).1 (by decide)).2 (Or.inr rfl)).2.1⟩

/-- **C7 (amended).** For a band whose construction failed (null line
buffer): `AccessLine`, `IReadBlock` and `IWriteBlock` return failure
with the state (hence the file) untouched.  `IRasterIO`, however,
performs no null-buffer check: it delegates to the external generic
path exactly when `CanUseDirectIO` fails, and otherwise runs the direct
path regardless of the buffer — in the contiguous unscaled case issuing
a file read and returning success. -/
theorem c7_amended_null_buffer_behaviour (b : RawBand) (ds : DsEnv)
    (seekOk writeOk : Bool) (st : LineState) (iLine : Int) (src : List Pixel)
    (env : DirectIOEnv) (req : RasterIOReq) :
    AccessLine b false ds seekOk st iLine = (.CE_Failure, st)
    ∧ IReadBlock b false ds seekOk st iLine = (.CE_Failure, st, none)
    ∧ IWriteBlock b false ds seekOk writeOk st iLine src = (.CE_Failure, st)
    ∧ ( CanUseDirectIO b env.cached env.oneBigRead env.resampleNearest
          req.nYOff req.nXSize req.nYSize = false →
        IRasterIORead b env req = .delegated)
    ∧ ( CanUseDirectIO b env.cached env.oneBigRead env.resampleNearest
          req.nYOff req.nXSize req.nYSize = true →
        contiguousReadCase b req = true →
        req.nXSize ≤ req.nBufXSize → req.nYSize ≤ req.nBufYSize →
        IRasterIORead b env req = .direct .CE_None (if env.seekOk then 1 else 0)) := by
  refine ⟨rfl, rfl, rfl, fun hg => by simp [IRasterIORead, hg],
    fun hg hcont hbx hby => ?_⟩
  simp [IRasterIORead, hg, hcont, Nat.not_lt.mpr hbx, Nat.not_lt.mpr hby]

/-- **C7 witness**: the amended behaviour at the failed-construction
band `bandBadInit` with the one-big-read environment. -/
theorem c7_witness :
    AccessLine bandBadInit false dsUpdate true emptyState 0
        = (.CE_Failure, emptyState)
    ∧ IReadBlock bandBadInit false dsUpdate true emptyState 0
        = (.CE_Failure, emptyState, none)
    ∧ IWriteBlock bandBadInit false dsUpdate true true emptyState 0 [[7]]
        = (.CE_Failure, emptyState)
    ∧ ( CanUseDirectIO bandBadInit envOneBigRead.cached envOneBigRead.oneBigRead
          envOneBigRead.resampleNearest reqFullWindow.nYOff reqFullWindow.nXSize
          reqFullWindow.nYSize = false →
        IRasterIORead bandBadInit envOneBigRead reqFullWindow = .delegated)
    ∧ ( CanUseDirectIO bandBadInit envOneBigRead.cached envOneBigRead.oneBigRead
          envOneBigRead.resampleNearest reqFullWindow.nYOff reqFullWindow.nXSize
          reqFullWindow.nYSize = true →
        contiguousReadCase bandBadInit reqFullWindow = true →
        reqFullWindow.nXSize ≤ reqFullWindow.nBufXSize →
        reqFullWindow.nYSize ≤ reqFullWindow.nBufYSize →
        IRasterIORead bandBadInit envOneBigRead reqFullWindow
          = .direct .CE_None (if envOneBigRead.seekOk then 1 else 0)) :=
  c7_amended_null_buffer_behaviour bandBadInit dsUpdate true true emptyState 0
    [[7]] envOneBigRead reqFullWindow

/-- The early-exit cache scan equals a plain count comparison: while the
running count has not yet passed the threshold, the loop returns `true`
exactly when the final count exceeds it. -/
theorem isSignificantAux_iff (cached : Int → Bool) (thr : Nat) :
    ∀ (n : Nat) (off : Int) (cnt : Nat), cnt ≤ thr →
      (IsSignificantAux cached thr off cnt n = true
        ↔ thr < cnt + countLoadedLines cached off n) := by
  intro n
  induction n with
  | zero =>
    intro off cnt h
    simp [IsSignificantAux, countLoadedLines]
    omega
  | succ m ih =>
    intro off cnt h
    by_cases hcach : cached off
    · by_cases hthr : thr < cnt + 1
      · simp [IsSignificantAux, countLoadedLines, hcach, hthr]
        omega
      · have h1 : cnt + 1 ≤ thr := by omega
        simp [IsSignificantAux, countLoadedLines, hcach, hthr,
          ih (off + 1) (cnt + 1) h1]
        omega
    · simp [IsSignificantAux, countLoadedLines, hcach, ih (off + 1) cnt h]

/-- `IsSignificantNumberOfLinesLoaded` holds exactly when more than
`nLines / 20` (5%) of the requested scanlines are already cached. -/
theorem isSignificant_iff_count (cached : Int → Bool) (nLineOff : Int)
    (nLines : Nat) :
    IsSignificantNumberOfLinesLoaded cached nLineOff nLines = true
      ↔ nLines / 20 < countLoadedLines cached nLineOff nLines := by
  have h := isSignificantAux_iff cached (nLines / 20) nLines nLineOff 0
    (Nat.zero_le _)
  simpa [IsSignificantNumberOfLinesLoaded] using h

/-- **C4 (amended).** `CanUseDirectIO` returns false whenever
`nPixelOffset < 0` or the resample algorithm is not nearest-neighbour.
With a positive pixel stride and nearest resampling: when
`GDAL_ONE_BIG_READ` is unset it returns false exactly when
`nLineSize < 50000`, or the requested width exceeds the code's integer
threshold `nLineSize / nPixelOffset / 5 * 2`, or more than 5 percent
(`> nYSize / 20`) of the requested scanlines are already cached; when
the option is set, its boolean value decides the result. -/
theorem c4_amended_direct_io_gate (b : RawBand) (cached : Int → Bool)
    (oneBigRead : Option Bool) (nYOff : Int) (nXSize nYSize : Nat)
    (hP : 0 < b.nPixelOffset) :
    (∀ (b2 : RawBand) (rn : Bool), b2.nPixelOffset < 0 ∨ rn = false →
        CanUseDirectIO b2 cached oneBigRead rn nYOff nXSize nYSize = false)
    ∧ ( CanUseDirectIO b cached none true nYOff nXSize nYSize = false
        ↔ (b.nLineSize < 50000
           ∨ b.nLineSize / b.nPixelOffset.toNat / 5 * 2 < nXSize
           ∨ nYSize / 20 < countLoadedLines cached nYOff nYSize))
    ∧ (∀ v : Bool, CanUseDirectIO b cached (some v) true nYOff nXSize nYSize = v) := by
  have hnlt : ¬b.nPixelOffset < 0 := by omega
  refine ⟨fun b2 rn h => ?_, ?_, fun v => ?_⟩
  · rcases h with h | h <;> simp [ CanUseDirectIO, h]
  · simp [ CanUseDirectIO, hnlt, ← isSignificant_iff_count cached nYOff nYSize]
    by_cases h1 : b.nLineSize < 50000 <;>
      by_cases h2 : b.nLineSize / b.nPixelOffset.toNat / 5 * 2 < nXSize <;>
        cases h3 : IsSignificantNumberOfLinesLoaded cached nYOff nYSize <;>
          simp [h1, h2, h3]
  · simp [ CanUseDirectIO, hnlt]

/-- **C4 witness**: the amended gate at the concrete wide band. -/
theorem c4_witness :
    (∀ (b2 : RawBand) (rn : Bool), b2.nPixelOffset < 0 ∨ rn = false →
        CanUseDirectIO b2 (fun _ => false) none rn 0 20001 1 = false)
    ∧ ( CanUseDirectIO bandWide (fun _ => false) none true 0 20001 1 = false
        ↔ (bandWide.nLineSize < 50000
           ∨ bandWide.nLineSize / bandWide.nPixelOffset.toNat / 5 * 2 < 20001
           ∨ 1 / 20 < countLoadedLines (fun _ => false) 0 1))
    ∧ (∀ v : Bool,
        CanUseDirectIO bandWide (fun _ => false) (some v) true 0 20001 1 = v) :=
  c4_amended_direct_io_gate bandWide (fun _ => false) none 0 20001 1 (by decide)

/-- **C8 (amended).** For `nBands ≥ 1`: the check always rejects when
one band's scanline size `|pixel_stride|·(width−1) + dt_size` exceeds
`INT_MAX / (4·nBands)` (conjunct 1); and it rejects exactly when either
the size check applies — triggered by `nBands > 10`, or by the
*unsigned 64-bit reinterpretation* of `pixel_stride` times `width`
exceeding 20000, or by a truthy `RAW_CHECK_FILE_SIZE`, **and not
disabled by a falsy `RAW_CHECK_FILE_SIZE`** — and the expected size
overflows or the actual file size is below half of it, or the scanline
bound above is violated (conjunct 2). -/
theorem c8_amended_memory_check (nXSize nYSize nBands nDTSize : Nat)
    (nPixelOffset nLineOffset : Int) (nHeaderSize nBandOffset : Nat)
    (checkOpt : Option Bool) (nFileSize : Nat) (hb : 1 ≤ nBands) :
    (INT_MAX / (4 * nBands) < nPixelOffset.natAbs * (nXSize - 1) + nDTSize →
      RAWDatasetCheckMemoryUsage nXSize nYSize nBands nDTSize nPixelOffset
        nLineOffset nHeaderSize nBandOffset checkOpt nFileSize = false)
    ∧ (RAWDatasetCheckMemoryUsage nXSize nYSize nBands nDTSize nPixelOffset
        nLineOffset nHeaderSize nBandOffset checkOpt nFileSize = false
      ↔ ((10 < nBands
            ∨ 20000 < ((nPixelOffset % (twoPow64 : Int)).toNat * nXSize) % twoPow64
            ∨ checkOpt = some true)
          ∧ checkOpt ≠ some false
          ∧ (vsiMaxOffset < expectedFileSize nXSize nYSize nBands nPixelOffset
                nLineOffset nHeaderSize nBandOffset
             ∨ nFileSize < expectedFileSize nXSize nYSize nBands nPixelOffset
                nLineOffset nHeaderSize nBandOffset / 2)
         ∨ INT_MAX / (4 * nBands)
             < nPixelOffset.natAbs * (nXSize - 1) + nDTSize)) := by
  have hdd : INT_MAX / 4 / nBands = INT_MAX / (4 * nBands) :=
    Nat.div_div_eq_div_mul _ _ _
  have h0 : 0 < nBands := hb
  constructor
  · intro h
    simp only [RAWDatasetCheckMemoryUsage]
    split_ifs with hA hB
    · rfl
    · rfl
    · exfalso
      apply hB
      simp only [Bool.and_eq_true, decide_eq_true_eq]
      refine ⟨h0, ?_⟩
      rw [hdd]
      exact h
  · simp only [RAWDatasetCheckMemoryUsage]
    split_ifs with hA hB
    · simp only [eq_self_iff_true, true_iff]
      simp only [Bool.and_eq_true, Bool.or_eq_true, decide_eq_true_eq,
        beq_iff_eq, Bool.not_eq_true', beq_eq_false_iff_ne] at hA
      tauto
    · simp only [eq_self_iff_true, true_iff]
      simp only [Bool.and_eq_true, decide_eq_true_eq] at hB
      rw [← hdd]
      tauto
    · constructor
      · intro htf
        exact absurd htf (by simp)
      · intro hcon
        exfalso
        simp only [Bool.and_eq_true, Bool.or_eq_true, decide_eq_true_eq,
          beq_iff_eq, Bool.not_eq_true', beq_eq_false_iff_ne] at hA hB
        rw [← hdd] at hcon
        tauto

/-- **C1.** For every band whose construction succeeds, and every
in-bounds pixel `(x, y)`, the addressing formula
`nImgOffset + nLineOffset·y + nPixelOffset·x` is non-negative and at
most `GINTBIG_MAX`; in particular with both strides negative the
combined subtraction `|nLineOffset|·(h−1) + |nPixelOffset|·(w−1)` never
exceeds `nImgOffset`. -/
theorem c1_valid_band_offsets_in_range (b : RawBand) (x y : Nat)
    (hx : x < b.nRasterXSize) (hy : y < b.nRasterYSize)
    (hinit : b.initializeSucceeds = true) :
    0 ≤ b.byteOffsetOfPixel x y
    ∧ b.byteOffsetOfPixel x y ≤ (GINTBIG_MAX : Int)
    ∧ (b.nLineOffset < 0 → b.nPixelOffset < 0 →
        b.nLineOffset.natAbs * (b.nRasterYSize - 1)
          + b.nPixelOffset.natAbs * (b.nRasterXSize - 1) ≤ b.nImgOffset) := by
  have hoff : b.offsetChecksOk = true := by
    simp only [RawBand.initializeSucceeds, Bool.and_eq_true] at hinit
    exact hinit.1
  have hyle : y ≤ b.nRasterYSize - 1 := by omega
  have hxle : x ≤ b.nRasterXSize - 1 := by omega
  have hLy : b.nLineOffset.natAbs * y
      ≤ b.nLineOffset.natAbs * (b.nRasterYSize - 1) :=
    Nat.mul_le_mul_left _ hyle
  have hPx : b.nPixelOffset.natAbs * x
      ≤ b.nPixelOffset.natAbs * (b.nRasterXSize - 1) :=
    Nat.mul_le_mul_left _ hxle
  have hLty : b.nLineOffset.toNat * y
      ≤ b.nLineOffset.toNat * (b.nRasterYSize - 1) :=
    Nat.mul_le_mul_left _ hyle
  have hPtx : b.nPixelOffset.toNat * x
      ≤ b.nPixelOffset.toNat * (b.nRasterXSize - 1) :=
    Nat.mul_le_mul_left _ hxle
  unfold RawBand.offsetChecksOk pixelOffsetCheck at hoff
  unfold RawBand.byteOffsetOfPixel
  by_cases hL : b.nLineOffset < 0
  · rw [if_pos hL] at hoff
    have eL : b.nLineOffset * (y : Int)
        = -((b.nLineOffset.natAbs * y : Nat) : Int) := by
      have h1 : ((b.nLineOffset.natAbs : Nat) : Int) = -b.nLineOffset := by
        omega
      rw [Nat.cast_mul, h1]
      ring
    by_cases hL1 : b.nImgOffset < b.nLineOffset.natAbs * (b.nRasterYSize - 1)
    · rw [if_pos hL1] at hoff
      exact absurd hoff (by simp)
    · rw [if_neg hL1] at hoff
      push_neg at hL1
      by_cases hP : b.nPixelOffset < 0
      · rw [if_pos hP] at hoff
        have eP : b.nPixelOffset * (x : Int)
            = -((b.nPixelOffset.natAbs * x : Nat) : Int) := by
          have h1 : ((b.nPixelOffset.natAbs : Nat) : Int) = -b.nPixelOffset := by
            omega
          rw [Nat.cast_mul, h1]
          ring
        by_cases hP1 : b.nImgOffset - b.nLineOffset.natAbs * (b.nRasterYSize - 1)
            < b.nPixelOffset.natAbs * (b.nRasterXSize - 1)
        · rw [if_pos hP1] at hoff
          exact absurd hoff (by simp)
        · rw [if_neg hP1] at hoff
          push_neg at hP1
          have hg : b.nImgOffset ≤ GINTBIG_MAX := of_decide_eq_true hoff
          rw [eL, eP]
          refine ⟨by omega, by omega, fun _ _ => by omega⟩
      · rw [if_neg hP] at hoff
        have eP : b.nPixelOffset * (x : Int)
            = ((b.nPixelOffset.toNat * x : Nat) : Int) := by
          have h1 : ((b.nPixelOffset.toNat : Nat) : Int) = b.nPixelOffset := by
            omega
          rw [Nat.cast_mul, h1]
        by_cases hP1 : vsiMaxOffset
            - b.nPixelOffset.toNat * (b.nRasterXSize - 1) < b.nImgOffset
        · rw [if_pos hP1] at hoff
          exact absurd hoff (by simp)
        · rw [if_neg hP1] at hoff
          have hg : b.nImgOffset + b.nPixelOffset.toNat * (b.nRasterXSize - 1)
              ≤ GINTBIG_MAX := of_decide_eq_true hoff
          rw [eL, eP]
          refine ⟨by omega, by omega, fun _ hPc => absurd hPc hP⟩
  · rw [if_neg hL] at hoff
    have eL : b.nLineOffset * (y : Int)
        = ((b.nLineOffset.toNat * y : Nat) : Int) := by
      have h1 : ((b.nLineOffset.toNat : Nat) : Int) = b.nLineOffset := by
        omega
      rw [Nat.cast_mul, h1]
    by_cases hL1 : vsiMaxOffset
        - b.nLineOffset.toNat * (b.nRasterYSize - 1) < b.nImgOffset
    · rw [if_pos hL1] at hoff
      exact absurd hoff (by simp)
    · rw [if_neg hL1] at hoff
      by_cases hP : b.nPixelOffset < 0
      · rw [if_pos hP] at hoff
        have eP : b.nPixelOffset * (x : Int)
            = -((b.nPixelOffset.natAbs * x : Nat) : Int) := by
          have h1 : ((b.nPixelOffset.natAbs : Nat) : Int) = -b.nPixelOffset := by
            omega
          rw [Nat.cast_mul, h1]
          ring
        by_cases hP1 : b.nImgOffset < b.nPixelOffset.natAbs * (b.nRasterXSize - 1)
        · rw [if_pos hP1] at hoff
          exact absurd hoff (by simp)
        · rw [if_neg hP1] at hoff
          push_neg at hP1
          have hg : b.nImgOffset + b.nLineOffset.toNat * (b.nRasterYSize - 1)
              ≤ GINTBIG_MAX := of_decide_eq_true hoff
          rw [eL, eP]
          refine ⟨by omega, by omega, fun hLc _ => absurd hLc hL⟩
      · rw [if_neg hP] at hoff
        have eP : b.nPixelOffset * (x : Int)
            = ((b.nPixelOffset.toNat * x : Nat) : Int) := by
          have h1 : ((b.nPixelOffset.toNat : Nat) : Int) = b.nPixelOffset := by
            omega
          rw [Nat.cast_mul, h1]
        by_cases hP1 : vsiMaxOffset - b.nPixelOffset.toNat * (b.nRasterXSize - 1)
            < b.nImgOffset + b.nLineOffset.toNat * (b.nRasterYSize - 1)
        · rw [if_pos hP1] at hoff
          exact absurd hoff (by simp)
        · rw [if_neg hP1] at hoff
          have hg : b.nImgOffset + b.nLineOffset.toNat * (b.nRasterYSize - 1)
              + b.nPixelOffset.toNat * (b.nRasterXSize - 1) ≤ GINTBIG_MAX :=
            of_decide_eq_true hoff
          rw [eL, eP]
          refine ⟨by omega, by omega, fun hLc _ => absurd hLc hL⟩

/-- **C1 witness**: the bounds at a concrete bottom-up, right-to-left
band, evaluated at its extreme pixel (9, 9), whose offset is 0. -/
theorem c1_witness :
    0 ≤ bandNegStrides.byteOffsetOfPixel 9 9
    ∧ bandNegStrides.byteOffsetOfPixel 9 9 ≤ (GINTBIG_MAX : Int)
    ∧ (bandNegStrides.nLineOffset < 0 → bandNegStrides.nPixelOffset < 0 →
        bandNegStrides.nLineOffset.natAbs * (bandNegStrides.nRasterYSize - 1)
          + bandNegStrides.nPixelOffset.natAbs * (bandNegStrides.nRasterXSize - 1)
          ≤ bandNegStrides.nImgOffset) :=
  c1_valid_band_offsets_in_range bandNegStrides 9 9 (by decide) (by decide)
    (by decide)

/-- Band 1 trivially matches itself. -/
theorem bandsMatch_self (b1 : RawBandInfo) : bandsMatch b1 b1 = true := by
  simp [bandsMatch]

/-- If any scanned band disagrees with band 1 on the quadruple, the
scan rejects. -/
theorem scanTailBands_mismatch (b1 : RawBandInfo) :
    ∀ (l : List RawBandInfo) (i : Nat) (acc : Int),
      (∃ bb ∈ l, bandsMatch b1 bb = false) →
      scanTailBands b1 i acc l = none := by
  intro l
  induction l with
  | nil =>
    intro i acc h
    rcases h with ⟨bb, hm, _⟩
    simp at hm
  | cons bb rest ih =>
    intro i acc h
    rcases h with ⟨cc, hc, hcm⟩
    simp only [List.mem_cons] at hc
    rcases hc with rfl | hc
    · simp [scanTailBands, hcm]
    · by_cases hm : bandsMatch b1 bb
      · simp only [scanTailBands, hm, Bool.not_true]
        split_ifs <;> first
          | rfl
          | exact ih _ _ ⟨cc, hc, hcm⟩
      · simp [scanTailBands, Bool.of_not_eq_true hm]

/-- A successful scan started at `i ≥ 3` returns its accumulator. -/
theorem scanTailBands_acc (b1 : RawBandInfo) :
    ∀ (l : List RawBandInfo) (i : Nat) (acc v : Int), 3 ≤ i →
      scanTailBands b1 i acc l = some v → v = acc := by
  intro l
  induction l with
  | nil =>
    intro i acc v _ h
    simp [scanTailBands] at h
    exact h.symm
  | cons bb rest ih =>
    intro i acc v hi h
    have hi2 : (i == 2) = false := by
      simp only [beq_eq_false_iff_ne]
      omega
    by_cases hm : bandsMatch b1 bb
    · simp [scanTailBands, hm, hi2] at h
      exact ih (i + 1) acc v (by omega) h.2
    · simp [scanTailBands, Bool.of_not_eq_true hm] at h

/-- A successful scan started at `i ≥ 3` certifies the offset
progression of every band it visited. -/
theorem scanTailBands_progression (b1 : RawBandInfo) :
    ∀ (l : List RawBandInfo) (i : Nat) (acc v : Int), 3 ≤ i →
      scanTailBands b1 i acc l = some v →
      ∀ (j : Nat) (hj : j < l.length),
        bandDelta b1 (l.get ⟨j, hj⟩) = acc * ((i : Int) - 1 + j) := by
  intro l
  induction l with
  | nil =>
    intro i acc v _ _ j hj
    simp at hj
  | cons bb rest ih =>
    intro i acc v hi h j hj
    have hi2 : (i == 2) = false := by
      simp only [beq_eq_false_iff_ne]
      omega
    by_cases hm : bandsMatch b1 bb
    · simp [scanTailBands, hm, hi2] at h
      obtain ⟨hprog, h⟩ := h
      match j with
        | 0 =>
          simp only [List.get]
          rw [← hprog]
          push_cast
          ring
        | j' + 1 =>
          have hj' : j' < rest.length := by
            simp at hj
            omega
          have h2 := ih (i + 1) acc v (by omega) h j' hj'
          simp only [List.get]
          rw [h2]
          push_cast
          ring
    · simp [scanTailBands, Bool.of_not_eq_true hm] at h

/-- A successful scan started at `i ≥ 3` certifies the quadruple
agreement of every band it visited. -/
theorem scanTailBands_all_match (b1 : RawBandInfo) :
    ∀ (l : List RawBandInfo) (i : Nat) (acc v : Int),
      scanTailBands b1 i acc l = some v →
      ∀ bb ∈ l, bandsMatch b1 bb = true := by
  intro l
  induction l with
  | nil =>
    intro i acc v _ bb hbb
    simp at hbb
  | cons cc rest ih =>
    intro i acc v h bb hbb
    by_cases hm : bandsMatch b1 cc
    · simp [scanTailBands, hm] at h
      simp only [List.mem_cons] at hbb
      rcases hbb with rfl | hbb
      · exact hm
      · split_ifs at h with h2
        · exact ih (i + 1) (bandDelta b1 cc) v h bb hbb
        · exact ih (i + 1) acc v h bb hbb
    · simp [scanTailBands, Bool.of_not_eq_true hm] at h

/-- Conversely, quadruple agreement plus the exact offset progression
make a scan started at `i ≥ 3` succeed with its accumulator. -/
theorem scanTailBands_success (b1 : RawBandInfo) :
    ∀ (l : List RawBandInfo) (i : Nat) (acc : Int), 3 ≤ i →
      (∀ bb ∈ l, bandsMatch b1 bb = true) →
      (∀ (j : Nat) (hj : j < l.length),
        bandDelta b1 (l.get ⟨j, hj⟩) = acc * ((i : Int) - 1 + j)) →
      scanTailBands b1 i acc l = some acc := by
  intro l
  induction l with
  | nil => intro i acc _ _ _; rfl
  | cons bb rest ih =>
    intro i acc hi hmatch hprog
    have hi2 : (i == 2) = false := by
      simp only [beq_eq_false_iff_ne]
      omega
    have hm : bandsMatch b1 bb = true := hmatch bb (List.mem_cons_self bb rest)
    have h0 := hprog 0 (by simp)
    simp only [List.get] at h0
    have hacc : acc * ((i : Int) - 1) = bandDelta b1 bb := by
      rw [h0]
      push_cast
      ring
    simp [scanTailBands, hm, hi2, hacc]
    refine ih (i + 1) acc (by omega) (fun cc hcc => hmatch cc (List.mem_cons_of_mem bb hcc)) ?_
    intro j hj
    have h2 := hprog (j + 1) (by simpa using Nat.succ_lt_succ hj)
    simp only [List.get] at h2
    rw [h2]
    push_cast
    ring

/-- **C5.** Layout inference over a dataset of `nBands > 1` bands
(`ds.bands = b1 :: b2 :: rest`): (a) if any band disagrees with band 1
on `(nPixelOffset, nLineOffset, bNativeOrder, eDataType)`, no layout is
reported; (b) whenever a layout is reported, its `nBandOffset` is
band 2's offset delta, and every later band `i` sits exactly at
`I + nBandOffset·(i−1)` (band `rest[j]` is band `j+3`); (c) the
reported interleaving is `BIP`/`BIL`/`BSQ` exactly when the
corresponding stride equations hold, and `UNKNOWN` otherwise; (d) a
dataset built with agreeing quadruples and the exact offset progression
is always classified — so a dataset constructed with exact BIP/BIL/BSQ
strides round-trips to that classification via (c). -/
theorem c5_layout_inference (ds : RawDs) (b1 b2 : RawBandInfo)
    (rest : List RawBandInfo) (hbands : ds.bands = b1 :: b2 :: rest)
    (hw : 1 ≤ ds.nRasterXSize)
    (hdt : 1 ≤ GDALGetDataTypeSizeBytes b1.eDataType) :
    ((∃ bb ∈ ds.bands, bandsMatch b1 bb = false) → GetRawBinaryLayout ds = none)
    ∧ (∀ lay, GetRawBinaryLayout ds = some lay →
        lay.nBandOffset = bandDelta b1 b2
        ∧ ∀ (j : Nat) (hj : j < rest.length),
            bandDelta b1 (rest.get ⟨j, hj⟩) = lay.nBandOffset * ((j : Int) + 2))
    ∧ (∀ lay, GetRawBinaryLayout ds = some lay →
        ((lay.eInterleaving = Interleaving.BIP
           ↔ (b1.nPixelOffset
                = ((ds.bands.length * GDALGetDataTypeSizeBytes b1.eDataType : Nat) : Int)
              ∧ b1.nLineOffset = b1.nPixelOffset * (ds.nRasterXSize : Int)
              ∧ lay.nBandOffset = ((GDALGetDataTypeSizeBytes b1.eDataType : Nat) : Int)))
         ∧ (lay.eInterleaving = Interleaving.BIL
           ↔ (b1.nPixelOffset = ((GDALGetDataTypeSizeBytes b1.eDataType : Nat) : Int)
              ∧ b1.nLineOffset
                = ((GDALGetDataTypeSizeBytes b1.eDataType * ds.bands.length
                    * ds.nRasterXSize : Nat) : Int)
              ∧ lay.nBandOffset
                = ((GDALGetDataTypeSizeBytes b1.eDataType * ds.nRasterXSize : Nat) : Int)))
         ∧ (lay.eInterleaving = Interleaving.BSQ
           ↔ (b1.nPixelOffset = ((GDALGetDataTypeSizeBytes b1.eDataType : Nat) : Int)
              ∧ b1.nLineOffset
                = ((GDALGetDataTypeSizeBytes b1.eDataType * ds.nRasterXSize : Nat) : Int)
              ∧ lay.nBandOffset = b1.nLineOffset * (ds.nRasterYSize : Int)))
         ∧ (lay.eInterleaving = Interleaving.UNKNOWN
           ↔ (¬(b1.nPixelOffset
                = ((ds.bands.length * GDALGetDataTypeSizeBytes b1.eDataType : Nat) : Int)
              ∧ b1.nLineOffset = b1.nPixelOffset * (ds.nRasterXSize : Int)
              ∧ lay.nBandOffset = ((GDALGetDataTypeSizeBytes b1.eDataType : Nat) : Int))
            ∧ ¬(b1.nPixelOffset = ((GDALGetDataTypeSizeBytes b1.eDataType : Nat) : Int)
              ∧ b1.nLineOffset
                = ((GDALGetDataTypeSizeBytes b1.eDataType * ds.bands.length
                    * ds.nRasterXSize : Nat) : Int)
              ∧ lay.nBandOffset
                = ((GDALGetDataTypeSizeBytes b1.eDataType * ds.nRasterXSize : Nat) : Int))
            ∧ ¬(b1.nPixelOffset = ((GDALGetDataTypeSizeBytes b1.eDataType : Nat) : Int)
              ∧ b1.nLineOffset
                = ((GDALGetDataTypeSizeBytes b1.eDataType * ds.nRasterXSize : Nat) : Int)
              ∧ lay.nBandOffset = b1.nLineOffset * (ds.nRasterYSize : Int))))))
    ∧ ((∀ bb ∈ ds.bands, bandsMatch b1 bb = true) →
       (∀ (j : Nat) (hj : j < rest.length),
           bandDelta b1 (rest.get ⟨j, hj⟩) = bandDelta b1 b2 * ((j : Int) + 2)) →
       ∃ lay, GetRawBinaryLayout ds = some lay
          ∧ lay.nBandOffset = bandDelta b1 b2) := by
  refine ⟨?_, ?_, ?_, ?_⟩
  · rintro ⟨bb, hmem, hmm⟩
    rw [hbands] at hmem
    rcases List.mem_cons.mp hmem with rfl | hmem2
    · rw [bandsMatch_self] at hmm
      cases hmm
    · have hscan : scanTailBands b1 2 0 (b2 :: rest) = none :=
        scanTailBands_mismatch b1 (b2 :: rest) 2 0 ⟨bb, hmem2, hmm⟩
      simp [GetRawBinaryLayout, hbands, hscan]
  · intro lay hlay
    simp only [GetRawBinaryLayout, hbands] at hlay
    cases hscan : scanTailBands b1 2 0 (b2 :: rest) with
    | none =>
      rw [hscan] at hlay
      exact absurd hlay (by simp)
    | some v =>
      rw [hscan] at hlay
      simp only [Option.some.injEq] at hlay
      have hm2 : bandsMatch b1 b2 = true :=
        scanTailBands_all_match b1 (b2 :: rest) 2 0 v hscan b2 (by simp)
      have hrest : scanTailBands b1 3 (bandDelta b1 b2) rest = some v := by
        simpa [scanTailBands, hm2] using hscan
      have hv : v = bandDelta b1 b2 :=
        scanTailBands_acc b1 rest 3 (bandDelta b1 b2) v (by omega) hrest
      have hprog := scanTailBands_progression b1 rest 3 (bandDelta b1 b2) v
        (by omega) hrest
      have hoffv : lay.nBandOffset = v := by
        rw [← hlay]
      refine ⟨hoffv.trans hv, fun j hj => ?_⟩
      rw [hprog j hj, hoffv, hv]
      push_cast
      ring
  · intro lay hlay
    rw [hbands]
    simp only [GetRawBinaryLayout, hbands] at hlay
    cases hscan : scanTailBands b1 2 0 (b2 :: rest) with
    | none =>
      rw [hscan] at hlay
      exact absurd hlay (by simp)
    | some v =>
      rw [hscan] at hlay
      simp only [Option.some.injEq] at hlay
      subst hlay
      have hn : 1 < (b1 :: b2 :: rest).length := by simp
      have hn2 : 2 ≤ (b1 :: b2 :: rest).length := by simp
      have hmul2 : 2 * GDALGetDataTypeSizeBytes b1.eDataType
          ≤ (b1 :: b2 :: rest).length * GDALGetDataTypeSizeBytes b1.eDataType :=
        Nat.mul_le_mul_right _ hn2
      have hLmul : GDALGetDataTypeSizeBytes b1.eDataType * 2 * ds.nRasterXSize
          = 2 * (GDALGetDataTypeSizeBytes b1.eDataType * ds.nRasterXSize) := by
        ring
      have hLmul2 : GDALGetDataTypeSizeBytes b1.eDataType * 2 * ds.nRasterXSize
          ≤ GDALGetDataTypeSizeBytes b1.eDataType * (b1 :: b2 :: rest).length
              * ds.nRasterXSize :=
        Nat.mul_le_mul_right _ (Nat.mul_le_mul_left _ hn2)
      have hdw : 1 ≤ GDALGetDataTypeSizeBytes b1.eDataType * ds.nRasterXSize :=
        Nat.mul_le_mul hdt hw
      simp only [if_pos hn]
      split_ifs with h1 h2 h3
      · simp only [Bool.and_eq_true, beq_iff_eq] at h1
        obtain ⟨⟨e1, e2⟩, e3⟩ := h1
        have hPne : b1.nPixelOffset
            ≠ ((GDALGetDataTypeSizeBytes b1.eDataType : Nat) : Int) := by
          rw [e1]
          intro hcon
          have hcon2 : (b1 :: b2 :: rest).length * GDALGetDataTypeSizeBytes b1.eDataType
              = GDALGetDataTypeSizeBytes b1.eDataType := by exact_mod_cast hcon
          omega
        exact ⟨iff_of_true rfl ⟨e1, e2, e3⟩,
          iff_of_false not_false (fun hc => hPne hc.1),
          iff_of_false not_false (fun hc => hPne hc.1),
          iff_of_false not_false (fun hc => hc.1 ⟨e1, e2, e3⟩)⟩
      · simp only [Bool.and_eq_true, beq_iff_eq] at h1 h2
        obtain ⟨⟨e4, e5⟩, e6⟩ := h2
        have hLne : b1.nLineOffset
            ≠ ((GDALGetDataTypeSizeBytes b1.eDataType * ds.nRasterXSize : Nat) : Int) := by
          rw [e5]
          intro hcon
          have hcon2 : GDALGetDataTypeSizeBytes b1.eDataType * (b1 :: b2 :: rest).length
              * ds.nRasterXSize
              = GDALGetDataTypeSizeBytes b1.eDataType * ds.nRasterXSize := by
            exact_mod_cast hcon
          omega
        exact ⟨iff_of_false not_false (fun hc => h1 ⟨⟨hc.1, hc.2.1⟩, hc.2.2⟩),
          iff_of_true rfl ⟨e4, e5, e6⟩,
          iff_of_false not_false (fun hc => hLne hc.2.1),
          iff_of_false not_false (fun hc => hc.2.1 ⟨e4, e5, e6⟩)⟩
      · simp only [Bool.and_eq_true, beq_iff_eq] at h1 h2 h3
        obtain ⟨⟨e4, e7⟩, e8⟩ := h3
        exact ⟨iff_of_false not_false (fun hc => h1 ⟨⟨hc.1, hc.2.1⟩, hc.2.2⟩),
          iff_of_false not_false (fun hc => h2 ⟨⟨hc.1, hc.2.1⟩, hc.2.2⟩),
          iff_of_true rfl ⟨e4, e7, e8⟩,
          iff_of_false not_false (fun hc => hc.2.2 ⟨e4, e7, e8⟩)⟩
      · simp only [Bool.and_eq_true, beq_iff_eq] at h1 h2 h3
        exact ⟨iff_of_false not_false (fun hc => h1 ⟨⟨hc.1, hc.2.1⟩, hc.2.2⟩),
          iff_of_false not_false (fun hc => h2 ⟨⟨hc.1, hc.2.1⟩, hc.2.2⟩),
          iff_of_false not_false (fun hc => h3 ⟨⟨hc.1, hc.2.1⟩, hc.2.2⟩),
          iff_of_true rfl ⟨fun hc => h1 ⟨⟨hc.1, hc.2.1⟩, hc.2.2⟩,
            fun hc => h2 ⟨⟨hc.1, hc.2.1⟩, hc.2.2⟩,
            fun hc => h3 ⟨⟨hc.1, hc.2.1⟩, hc.2.2⟩⟩⟩
  · intro hmatch hprog
    have hm2 : bandsMatch b1 b2 = true := hmatch b2 (by rw [hbands]; simp)
    have hs : scanTailBands b1 3 (bandDelta b1 b2) rest = some (bandDelta b1 b2) :=
      scanTailBands_success b1 rest 3 (bandDelta b1 b2) (by omega)
        (fun cc hcc => hmatch cc (by rw [hbands]; simp [hcc]))
        (fun j hj => by rw [hprog j hj]; push_cast; ring)
    have hscan : scanTailBands b1 2 0 (b2 :: rest) = some (bandDelta b1 b2) := by
      simp [scanTailBands, hm2, hs]
    cases hGL : GetRawBinaryLayout ds with
    | none =>
      exfalso
      simp [GetRawBinaryLayout, hbands, hscan] at hGL
    | some lay =>
      refine ⟨lay, rfl, ?_⟩
      simp only [GetRawBinaryLayout, hbands] at hGL
      rw [hscan] at hGL
      simp only [Option.some.injEq] at hGL
      rw [← hGL]

/-- **C5 witness**: the spec's three-band BIL scenario is classified
`BIL` with band stride 10, obtained through the inference theorem. -/
theorem c5_witness :
    ∃ lay, GetRawBinaryLayout dsBIL = some lay
      ∧ lay.eInterleaving = Interleaving.BIL
      ∧ lay.nBandOffset = 10 := by
  obtain ⟨ca, cb, cc, cd⟩ :=
    c5_layout_inference dsBIL bilBand1 bilBand2 [bilBand3] rfl (by decide)
      (by decide)
  obtain ⟨lay, hlay, hoff⟩ := cd (by decide) (by decide)
  have hoff10 : lay.nBandOffset = (10 : Int) := by
    rw [hoff]
    decide
  refine ⟨lay, hlay, ?_, hoff10⟩
  exact ((cc lay hlay).2.1).mpr ⟨by decide, by decide, by rw [hoff10]; decide⟩

/-- **C8 witness**: the amended characterization at a concrete
11-band dataset with an empty file and the option unset. -/
theorem c8_witness :
    (INT_MAX / (4 * 11) < (1 : Int).natAbs * (5 - 1) + 1 →
      RAWDatasetCheckMemoryUsage 5 5 11 1 1 5 0 25 none 0 = false)
    ∧ (RAWDatasetCheckMemoryUsage 5 5 11 1 1 5 0 25 none 0 = false
      ↔ ((10 < 11
            ∨ 20000 < (((1 : Int) % (twoPow64 : Int)).toNat * 5) % twoPow64
            ∨ (none : Option Bool) = some true)
          ∧ (none : Option Bool) ≠ some false
          ∧ (vsiMaxOffset < expectedFileSize 5 5 11 1 5 0 25
             ∨ 0 < expectedFileSize 5 5 11 1 5 0 25 / 2)
         ∨ INT_MAX / (4 * 11) < (1 : Int).natAbs * (5 - 1) + 1)) :=
  c8_amended_memory_check 5 5 11 1 1 5 0 25 none 0 (by decide)
